import Mathlib

/-!
Verification of the GraphiteEngine WebGPU rendering core.

Shallow embedding of:
- `WebGPUMesh` (vertex list + lazily cached GPU vertex buffer),
- `WebGPURenderer` (`render`, `setUsePostProcessing`, `setupQuadMesh`,
  `getBindGroupEntryResource`, `setupUniformBindGroup`, `getDevice`),
- `Actor` (static construction registry).

GPU objects are modelled as handles with identity and the observable
fields the code reads (a buffer has an id and a byte size).  A `GPUDevice`
is an allocator state: a counter of fresh buffer ids together with a log
of the `queue.writeBuffer` uploads performed on it.  Numbers are `ℚ`
(the code only manipulates exact literals in the verified claims).
-/

namespace GraphiteEngine

/-- A GPU buffer handle: identity plus its byte length
(`Float32Array.byteLength` of the payload it was created for). -/
structure GPUBufferHandle where
  id : Nat
  byteLength : Nat
deriving DecidableEq, Repr

/-- The logical device, modelled as the allocator/queue state the embedded
code interacts with: a fresh-id counter for `createBuffer` and the ordered
log of `queue.writeBuffer` uploads (buffer id, payload). -/
structure GPUDevice where
  nextBufferId : Nat
  uploads : List (Nat × List ℚ)
deriving DecidableEq, Repr

/-- `Vector3` from src/src/classes/engine/Math/Vector3.ts (the fields the
rendering claims use). -/
structure Vector3 where
  x : ℚ
  y : ℚ
  z : ℚ
deriving DecidableEq, Repr

/-- `Vector3.toArray`. -/
def Vector3.toArray (v : Vector3) : List ℚ :=
  [v.x, v.y, v.z]

/-- Modelled from the spec: the `Vertex` class is not among the source
files (only its callers are).  Per §3 of the spec a vertex carries
position (3 floats), uv (2 floats) and normal (3 floats), exposed by
`getPosition`/`getUV`/`getNormal`. -/
structure Vertex where
  position : Vector3
  uv : ℚ × ℚ
  normal : Vector3
deriving DecidableEq, Repr

/-- Modelled from the spec: the `Vertex` constructor used by
`setupQuadMesh` takes only the position; uv and normal default to zero. -/
def Vertex.ofPosition (p : Vector3) : Vertex :=
  ⟨p, (0, 0), ⟨0, 0, 0⟩⟩

/-- `Vertex.getPosition` flattened, as `this.vertices.push(...vert.getPosition())`
consumes it. -/
def Vertex.getPosition (v : Vertex) : List ℚ :=
  v.position.toArray

/-- `Vertex.getUV` flattened. -/
def Vertex.getUV (v : Vertex) : List ℚ :=
  [v.uv.1, v.uv.2]

/-- `Vertex.getNormal` flattened. -/
def Vertex.getNormal (v : Vertex) : List ℚ :=
  v.normal.toArray

/-- `WebGPUMesh` state: the interleaved vertex float list and the cached
GPU vertex buffer (`null` = `none`). -/
structure WebGPUMesh where
  vertices : List ℚ
  vertexBuffer : Option GPUBufferHandle
deriving DecidableEq, Repr

/-- The `WebGPUMesh` constructor: empty vertex list, no cached buffer. -/
def WebGPUMesh.new : WebGPUMesh :=
  ⟨[], none⟩

/-- `WebGPUMesh.generateVertexBuffer`: allocates a device buffer sized to
`Float32Array(t).byteLength = 4 * t.length`, uploads `t` via
`device.queue.writeBuffer`, stores the buffer in `this.vertexBuffer` and
returns it.  Result: (returned buffer, updated mesh, updated device). -/
def WebGPUMesh.generateVertexBuffer (m : WebGPUMesh) (d : GPUDevice)
    (t : List ℚ) : GPUBufferHandle × WebGPUMesh × GPUDevice :=
  let buffer : GPUBufferHandle := ⟨d.nextBufferId, 4 * t.length⟩
  let d' : GPUDevice := ⟨d.nextBufferId + 1, d.uploads ++ [(buffer.id, t)]⟩
  (buffer, { m with vertexBuffer := some buffer }, d')

/-- `WebGPUMesh.getVertexBuffer`: returns the cached buffer when present,
otherwise builds one from the current `this.vertices` via
`generateVertexBuffer`. -/
def WebGPUMesh.getVertexBuffer (m : WebGPUMesh) (d : GPUDevice) :
    GPUBufferHandle × WebGPUMesh × GPUDevice :=
  match m.vertexBuffer with
  | some b => (b, m, d)
  | none => m.generateVertexBuffer d m.vertices

/-- `WebGPUMesh.addVertexAsNumbers`: appends raw floats to the content. -/
def WebGPUMesh.addVertexAsNumbers (m : WebGPUMesh) (xs : List ℚ) : WebGPUMesh :=
  { m with vertices := m.vertices ++ xs }

/-- The flattened attributes one `Vertex` contributes in `addVertex`:
position, then uv, then normal. -/
def Vertex.flattened (v : Vertex) : List ℚ :=
  v.getPosition ++ v.getUV ++ v.getNormal

/-- `WebGPUMesh.addVertex`: for each vertex pushes position, uv, normal
(in that order) onto `this.vertices`.  Note the source mutates only the
`vertices` array; `this.vertexBuffer` is left untouched. -/
def WebGPUMesh.addVertex (m : WebGPUMesh) (vs : List Vertex) : WebGPUMesh :=
  { m with vertices := m.vertices ++ vs.flatMap Vertex.flattened }

/-- `WebGPUMesh.setVertices`: `this.vertices = vertices`.  The source
assigns the content only; it does not touch `this.vertexBuffer`. -/
def WebGPUMesh.setVertices (m : WebGPUMesh) (vs : List ℚ) : WebGPUMesh :=
  { m with vertices := vs }

/-- `WebGPUMesh.getVertices`. -/
def WebGPUMesh.getVertices (m : WebGPUMesh) : List ℚ :=
  m.vertices

/-- `WebGPUMesh.reset`: drops the cached buffer (only reachable through
the obj-loader callback in `from`, not from any mutator). -/
def WebGPUMesh.reset (m : WebGPUMesh) : WebGPUMesh :=
  { m with vertexBuffer := none }

/-- `WebGPURenderer.setupQuadMesh`: a fresh mesh with the six
post-processing quad vertices added via `addVertex`. -/
def setupQuadMesh : WebGPUMesh :=
  WebGPUMesh.new.addVertex
    [ Vertex.ofPosition ⟨-1,  1, 0⟩
    , Vertex.ofPosition ⟨-1, -1, 0⟩
    , Vertex.ofPosition ⟨ 1, -1, 0⟩
    , Vertex.ofPosition ⟨-1,  1, 0⟩
    , Vertex.ofPosition ⟨ 1,  1, 0⟩
    , Vertex.ofPosition ⟨ 1, -1, 0⟩ ]

/-- Opaque handles for the remaining GPU objects the renderer state holds;
only identity matters to the verified claims. -/
structure GPUAdapterHandle where
  id : Nat
deriving DecidableEq, Repr

/-- A configured canvas context handle. -/
structure GPUCanvasContextHandle where
  id : Nat
deriving DecidableEq, Repr

/-- A render-pipeline handle. -/
structure GPURenderPipelineHandle where
  id : Nat
deriving DecidableEq, Repr

/-- A texture handle. -/
structure GPUTextureHandle where
  id : Nat
deriving DecidableEq, Repr

/-- A depth/texture view handle. -/
structure GPUTextureViewHandle where
  id : Nat
deriving DecidableEq, Repr

/-- A sampler handle. -/
structure GPUSamplerHandle where
  id : Nat
deriving DecidableEq, Repr

/-- Modelled from the spec: `RenderingCanvas` is not among the source
files.  Per the spec it is a drawable surface whose `displayCanvas` /
`hideCanvas` make it visible / hidden; the claims only observe
visibility. -/
structure RenderingCanvas where
  visible : Bool
deriving DecidableEq, Repr

/-- `RenderingCanvas.displayCanvas` (modelled from the spec: makes the
surface the visible one). -/
def RenderingCanvas.displayCanvas (_c : RenderingCanvas) : RenderingCanvas :=
  ⟨true⟩

/-- `RenderingCanvas.hideCanvas` (modelled from the spec: hides the
surface). -/
def RenderingCanvas.hideCanvas (_c : RenderingCanvas) : RenderingCanvas :=
  ⟨false⟩

/-- An `Actor` reference as `render` consumes it: its object identity
(`id`, TypeScript reference equality) and its mesh.  Material, transform
and the camera-side buffers are external collaborators; `renderActor`
resolves them per draw, and the claims observe only which actors get a
draw call and with what vertex count. -/
structure ActorRef where
  id : Nat
  mesh : WebGPUMesh
deriving DecidableEq, Repr

/-- The observable GPU command stream one `render` call produces: the
command-encoder session, the render pass begun with its clear values,
one draw per rendered actor (tagged with the actor's identity and the
vertex count `vertices.length / 8`), the pass end, and the queue
submission carrying the number of finished command buffers. -/
inductive GPUOp where
  | createCommandEncoder
  | beginRenderPass (r g b a depth : ℚ)
  | drawActor (actorId : Nat) (vertexCount : Nat)
  | endPass
  | submit (numBuffers : Nat)
deriving DecidableEq, Repr

/-- `WebGPURenderer` state: the fields of the class that the verified
entry points read or write (`null` = `none`). -/
structure WebGPURenderer where
  usePostProcessing : Bool
  renderingCanvas : RenderingCanvas
  postProcessingRenderingCanvas : RenderingCanvas
  adapter : Option GPUAdapterHandle
  device : Option GPUDevice
  context : Option GPUCanvasContextHandle
  postProcessingContext : Option GPUCanvasContextHandle
  postProcessingPipeline : Option GPURenderPipelineHandle
  depthView : Option GPUTextureViewHandle
  quadMesh : WebGPUMesh
  sampler : Option GPUSamplerHandle
deriving DecidableEq, Repr

/-- The Ready guard of `render`: the source returns early unless
`this.device`, `this.context` and `this.depthView` are all non-null. -/
def WebGPURenderer.isReady (r : WebGPURenderer) : Bool :=
  r.device.isSome && r.context.isSome && r.depthView.isSome

/-- `WebGPURenderer.renderActor`, projected to its observable commands:
it resolves the actor's pipeline, vertex buffer and the four per-draw
uniform buffers, then `draw` issues one draw call sized to
`mesh.getVertices().length / (3 + 2 + 3)`. -/
def renderActorOps (a : ActorRef) : List GPUOp :=
  [GPUOp.drawActor a.id (a.mesh.getVertices.length / (3 + 2 + 3))]

/-- `WebGPURenderer.render`: no-op (empty command stream) unless device,
context and depth view are all present; otherwise one command encoder,
one render pass cleared to (0.09, 0.09, 0.09, 1.0) with depth cleared to
1.0, one `renderActor` per actor with `actor != camera` (reference
inequality), then end pass and submit the single finished command
buffer. -/
def WebGPURenderer.render (r : WebGPURenderer) (actors : List ActorRef)
    (camera : ActorRef) : List GPUOp :=
  match r.device, r.context, r.depthView with
  | some _, some _, some _ =>
      [GPUOp.createCommandEncoder,
       GPUOp.beginRenderPass (9/100) (9/100) (9/100) 1 1]
      ++ (actors.filter (fun a => a.id ≠ camera.id)).flatMap renderActorOps
      ++ [GPUOp.endPass, GPUOp.submit 1]
  | _, _, _ => []

/-- `WebGPURenderer.getDevice`: throws "Error: Device not found" when
`this.device` is null, otherwise returns the device. -/
def WebGPURenderer.getDevice (r : WebGPURenderer) : Except String GPUDevice :=
  match r.device with
  | none => Except.error "Error: Device not found"
  | some d => Except.ok d

/-- `WebGPURenderer.setUsePostProcessing`: records the flag, then
`use = true` hides the primary canvas and displays the post-processing
canvas; `use = false` does the converse. -/
def WebGPURenderer.setUsePostProcessing (r : WebGPURenderer) (use : Bool) :
    WebGPURenderer :=
  if use then
    { r with usePostProcessing := use
             renderingCanvas := r.renderingCanvas.hideCanvas
             postProcessingRenderingCanvas :=
               r.postProcessingRenderingCanvas.displayCanvas }
  else
    { r with usePostProcessing := use
             renderingCanvas := r.renderingCanvas.displayCanvas
             postProcessingRenderingCanvas :=
               r.postProcessingRenderingCanvas.hideCanvas }

/-- The raw resource kinds `setupUniformBindGroup` accepts at runtime:
the TypeScript union `GPUBuffer | GPUTexture | GPUSampler`, plus a
fourth constructor for a value of an unrecognized kind (neither buffer,
texture nor sampler), which the `instanceof` chain cannot distinguish
from a sampler. -/
inductive GPUResource where
  | buffer (b : GPUBufferHandle)
  | texture (t : GPUTextureHandle)
  | sampler (s : GPUSamplerHandle)
  | other (id : Nat)
deriving DecidableEq, Repr

/-- What `getBindGroupEntryResource` can return: a buffer binding
wrapping the whole buffer, a default view freshly created from a
texture, or the argument passed through unchanged (the final
`return entry` branch). -/
inductive GPUBindingResource where
  | bufferBinding (b : GPUBufferHandle)
  | defaultView (t : GPUTextureHandle)
  | passedThrough (r : GPUResource)
deriving DecidableEq, Repr

/-- `WebGPURenderer.getBindGroupEntryResource`: `instanceof GPUBuffer` →
buffer binding; `instanceof GPUTexture` → `entry.createView()`;
otherwise the entry itself is returned unchanged — the source has no
failing branch. -/
def getBindGroupEntryResource : GPUResource → GPUBindingResource
  | GPUResource.buffer b => GPUBindingResource.bufferBinding b
  | GPUResource.texture t => GPUBindingResource.defaultView t
  | e => GPUBindingResource.passedThrough e

/-- One entry of a bind group: the slot index and the mapped resource. -/
structure GPUBindGroupEntry where
  binding : Nat
  resource : GPUBindingResource
deriving DecidableEq, Repr

/-- The entry-building loop of `setupUniformBindGroup`:
`for i in 0..len-1, push (binding i, getBindGroupEntryResource buffers[i])`. -/
def setupEntries (i : Nat) : List GPUResource → List GPUBindGroupEntry
  | [] => []
  | r :: rs => ⟨i, getBindGroupEntryResource r⟩ :: setupEntries (i + 1) rs

/-- `WebGPURenderer.setupUniformBindGroup`, as the list of bind-group
entries handed to `device.createBindGroup`.  The codomain is
error-capable to make failure expressible, but the source function has
no throwing path: every input maps to `Except.ok`. -/
def setupUniformBindGroup (buffers : List GPUResource) :
    Except String (List GPUBindGroupEntry) :=
  Except.ok (setupEntries 0 buffers)

/-- The `Actor` class statics: the process-wide `Actor.actors` registry
together with the allocator of fresh object identities (two distinct
`new Actor()` results are distinct references). -/
structure ActorStatics where
  actors : List Nat
  nextId : Nat
deriving DecidableEq, Repr

/-- The state of the registry before any `Actor` is constructed. -/
def ActorStatics.initial : ActorStatics :=
  ⟨[], 0⟩

/-- The `Actor` constructor: `Actor.actors.push(this)` — the fresh
object is appended to the static registry; nothing else touches it. -/
def Actor.construct (s : ActorStatics) : ActorStatics × Nat :=
  (⟨s.actors ++ [s.nextId], s.nextId + 1⟩, s.nextId)

/-- `Actor.getActors`: returns the static registry. -/
def Actor.getActors (s : ActorStatics) : List Nat :=
  s.actors

/-- `Actor.update`: the source body is empty — the registry (and all
other state) is untouched. -/
def Actor.update (s : ActorStatics) : ActorStatics :=
  s

/-- A sequence of `n` actor constructions. -/
def constructMany : Nat → ActorStatics → ActorStatics
  | 0, s => s
  | n + 1, s => constructMany n (Actor.construct s).1

/-! ### Helper functions over command traces -/

/-- The `submit` payloads (numbers of command buffers) in a trace. -/
def submitPayload : GPUOp → Option Nat
  | GPUOp.submit n => some n
  | _ => none

/-- Recognizes the opening of a command-recording session. -/
def GPUOp.isEncoderStart : GPUOp → Bool
  | GPUOp.createCommandEncoder => true
  | _ => false

/-- Recognizes the beginning of a render pass. -/
def GPUOp.isPassBegin : GPUOp → Bool
  | GPUOp.beginRenderPass _ _ _ _ _ => true
  | _ => false

/-- Recognizes a queue submission. -/
def GPUOp.isSubmit : GPUOp → Bool
  | GPUOp.submit _ => true
  | _ => false

/-- How many ops of a trace satisfy a predicate. -/
def countOp (t : List GPUOp) (p : GPUOp → Bool) : Nat :=
  (t.filter p).length

/-- Total number of command buffers submitted across a trace. -/
def submittedBuffers (t : List GPUOp) : Nat :=
  (t.filterMap submitPayload).sum

/-- The identities of the actors drawn by a trace, in draw order. -/
def drawnActors (t : List GPUOp) : List Nat :=
  t.filterMap fun op =>
    match op with
    | GPUOp.drawActor i _ => some i
    | _ => none

/-! ### Shared concrete states for witnesses -/

/-- A renderer that has not completed device negotiation. -/
def unreadyRenderer : WebGPURenderer :=
  { usePostProcessing := false
    renderingCanvas := ⟨true⟩
    postProcessingRenderingCanvas := ⟨false⟩
    adapter := none
    device := none
    context := none
    postProcessingContext := none
    postProcessingPipeline := none
    depthView := none
    quadMesh := setupQuadMesh
    sampler := none }

/-- A renderer in the Ready state (device, contexts, pipeline, depth view
and sampler all bound). -/
def readyRenderer : WebGPURenderer :=
  { usePostProcessing := false
    renderingCanvas := ⟨true⟩
    postProcessingRenderingCanvas := ⟨false⟩
    adapter := some ⟨0⟩
    device := some ⟨0, []⟩
    context := some ⟨0⟩
    postProcessingContext := some ⟨1⟩
    postProcessingPipeline := some ⟨0⟩
    depthView := some ⟨0⟩
    quadMesh := setupQuadMesh
    sampler := some ⟨0⟩ }

/-- A concrete camera object. -/
def cameraA : ActorRef :=
  ⟨0, WebGPUMesh.new⟩

/-- A concrete non-camera actor with one 8-float vertex. -/
def actorB : ActorRef :=
  ⟨1, WebGPUMesh.new.addVertexAsNumbers [1, 2, 3, 4, 5, 6, 7, 8]⟩

/-! ## C2: `setVertices` and the vertex-buffer cache -/

/-- C2 counterexample: build the buffer for an 8-float mesh, then
`setVertices` with a 4-float list.  The cached buffer is NOT invalidated
(still present), and the next `getVertexBuffer` returns the stale
32-byte buffer, not a rebuilt 16-byte one. -/
theorem setVertices_does_not_invalidate :
    ((((WebGPUMesh.mk [1, 2, 3, 4, 5, 6, 7, 8] none).getVertexBuffer
        ⟨0, []⟩).2.1.setVertices [4, 4, 4, 4]).vertexBuffer ≠ none) ∧
    (((((WebGPUMesh.mk [1, 2, 3, 4, 5, 6, 7, 8] none).getVertexBuffer
        ⟨0, []⟩).2.1.setVertices [4, 4, 4, 4]).getVertexBuffer
        ⟨1, []⟩).1.byteLength ≠ 4 * 4) := by
  decide

/-- C2 amended: `setVertices` replaces the content but leaves the cached
buffer exactly as it was (no invalidation, and no eager build); only
when no buffer was cached does the next `getVertexBuffer` build from the
new content, with byte length `4 * v.length`. -/
theorem setVertices_replaces_content_keeps_cache
    (m : WebGPUMesh) (v : List ℚ) (d : GPUDevice) :
    (m.setVertices v).vertices = v ∧
    (m.setVertices v).vertexBuffer = m.vertexBuffer ∧
    (m.vertexBuffer = none →
      ((m.setVertices v).getVertexBuffer d).1.byteLength = v.length * 4 ∧
      ((m.setVertices v).getVertexBuffer d).2.1.vertexBuffer =
        some ((m.setVertices v).getVertexBuffer d).1) := by
  refine ⟨rfl, rfl, fun h => ?_⟩
  simp [WebGPUMesh.setVertices, WebGPUMesh.getVertexBuffer,
    WebGPUMesh.generateVertexBuffer, h, Nat.mul_comm]

/-- C2 amended witness at a concrete uncached mesh. -/
theorem setVertices_replaces_content_keeps_cache_witness :
    ((WebGPUMesh.mk [9] none).setVertices [1, 2]).vertices = [1, 2] ∧
    ((WebGPUMesh.mk [9] none).setVertices [1, 2]).vertexBuffer =
      (WebGPUMesh.mk [9] none).vertexBuffer ∧
    (((WebGPUMesh.mk [9] none).vertexBuffer = none) →
      ((((WebGPUMesh.mk [9] none).setVertices [1, 2]).getVertexBuffer
          ⟨0, []⟩).1.byteLength = [1, 2].length * 4 ∧
        (((WebGPUMesh.mk [9] none).setVertices [1, 2]).getVertexBuffer
          ⟨0, []⟩).2.1.vertexBuffer =
          some ((((WebGPUMesh.mk [9] none).setVertices [1, 2]).getVertexBuffer
            ⟨0, []⟩)).1)) :=
  setVertices_replaces_content_keeps_cache (WebGPUMesh.mk [9] none) [1, 2] ⟨0, []⟩

/-! ## C6: `getVertexBuffer` caches -/

/-- C6: the first `getVertexBuffer` call on an uncached mesh allocates
one buffer sized to the content, uploads the content, and caches the
handle; a second call with no intervening mutation returns the identical
handle and leaves mesh and device untouched (no re-allocation, no
re-upload). -/
theorem getVertexBuffer_idempotent_cached (m : WebGPUMesh) (d : GPUDevice) :
    ((m.getVertexBuffer d).2.1.getVertexBuffer (m.getVertexBuffer d).2.2).1 =
      (m.getVertexBuffer d).1 ∧
    ((m.getVertexBuffer d).2.1.getVertexBuffer (m.getVertexBuffer d).2.2).2.1 =
      (m.getVertexBuffer d).2.1 ∧
    ((m.getVertexBuffer d).2.1.getVertexBuffer (m.getVertexBuffer d).2.2).2.2 =
      (m.getVertexBuffer d).2.2 ∧
    (m.getVertexBuffer d).2.1.vertexBuffer = some (m.getVertexBuffer d).1 ∧
    (m.vertexBuffer = none →
      (m.getVertexBuffer d).1.byteLength = 4 * m.vertices.length ∧
      (m.getVertexBuffer d).2.2.nextBufferId = d.nextBufferId + 1 ∧
      (m.getVertexBuffer d).2.2.uploads =
        d.uploads ++ [((m.getVertexBuffer d).1.id, m.vertices)]) := by
  cases h : m.vertexBuffer with
  | none =>
      simp [WebGPUMesh.getVertexBuffer, WebGPUMesh.generateVertexBuffer, h]
  | some b =>
      simp [WebGPUMesh.getVertexBuffer, h]

/-- C6 witness at a concrete uncached one-vertex mesh. -/
theorem getVertexBuffer_idempotent_cached_witness :
    (((WebGPUMesh.mk [5, 6] none).getVertexBuffer ⟨3, []⟩).2.1.getVertexBuffer
        ((WebGPUMesh.mk [5, 6] none).getVertexBuffer ⟨3, []⟩).2.2).1 =
      ((WebGPUMesh.mk [5, 6] none).getVertexBuffer ⟨3, []⟩).1 ∧
    ((WebGPUMesh.mk [5, 6] none).getVertexBuffer ⟨3, []⟩).2.1.vertexBuffer =
      some ((WebGPUMesh.mk [5, 6] none).getVertexBuffer ⟨3, []⟩).1 ∧
    (((WebGPUMesh.mk [5, 6] none).vertexBuffer = none) →
      ((WebGPUMesh.mk [5, 6] none).getVertexBuffer ⟨3, []⟩).1.byteLength =
        4 * (WebGPUMesh.mk [5, 6] none).vertices.length) := by
  have h := getVertexBuffer_idempotent_cached (WebGPUMesh.mk [5, 6] none) ⟨3, []⟩
  exact ⟨h.1, h.2.2.2.1, fun hn => (h.2.2.2.2 hn).1⟩

/-! ## C7: `addVertex` appends flattened attributes -/

/-- C7 counterexample: `addVertex` on a mesh holding a cached buffer
leaves the cache in place — it does not invalidate it. -/
theorem addVertex_does_not_invalidate :
    ((WebGPUMesh.mk [0, 0, 0, 0, 0, 0, 0, 0] (some ⟨0, 32⟩)).addVertex
      [Vertex.ofPosition ⟨1, 2, 3⟩]).vertexBuffer ≠ none := by
  decide

/-- C7 amended: `addVertex` appends each vertex's flattened attributes in
the exact order position (3 floats), uv (2 floats), normal (3 floats),
but it does NOT invalidate the cached GPU vertex buffer (no content
mutation does). -/
theorem addVertex_appends_flattened (m : WebGPUMesh) (vs : List Vertex) :
    (m.addVertex vs).vertices =
      m.vertices ++ vs.flatMap (fun v =>
        [v.position.x, v.position.y, v.position.z,
         v.uv.1, v.uv.2,
         v.normal.x, v.normal.y, v.normal.z]) ∧
    (m.addVertex vs).vertexBuffer = m.vertexBuffer := by
  have hf : Vertex.flattened = fun v : Vertex =>
      [v.position.x, v.position.y, v.position.z,
       v.uv.1, v.uv.2,
       v.normal.x, v.normal.y, v.normal.z] := by
    funext v
    rfl
  refine ⟨?_, rfl⟩
  simp only [WebGPUMesh.addVertex]
  rw [hf]

/-! ## C10: the static actor registry -/

/-- Registry shape after `n` constructions from an arbitrary state. -/
theorem constructMany_actors (n : Nat) (s : ActorStatics) :
    (constructMany n s).actors = s.actors ++ List.range' s.nextId n ∧
    (constructMany n s).nextId = s.nextId + n := by
  induction n generalizing s with
  | zero => simp [constructMany]
  | succ n ih =>
      obtain ⟨h1, h2⟩ := ih (Actor.construct s).1
      simp only [constructMany, Actor.construct] at h1 h2 ⊢
      constructor
      · simp [h1, List.range'_succ]
      · omega

/-- C10: every construction appends the fresh actor to the static
registry, `getActors` returns the registry, `update` leaves it alone,
and after any number `n` of constructions from the initial state the
registry lists every actor ever constructed, exactly once each
(no duplicates), in construction order. -/
theorem actor_registry_complete :
    (∀ s : ActorStatics,
      (Actor.construct s).1.actors = s.actors ++ [(Actor.construct s).2] ∧
      Actor.getActors (Actor.construct s).1 =
        Actor.getActors s ++ [(Actor.construct s).2] ∧
      Actor.update s = s) ∧
    (∀ n : Nat,
      Actor.getActors (constructMany n ActorStatics.initial) = List.range n ∧
      (Actor.getActors (constructMany n ActorStatics.initial)).Nodup) := by
  constructor
  · intro s
    exact ⟨rfl, rfl, rfl⟩
  · intro n
    have h := constructMany_actors n ActorStatics.initial
    have hr : Actor.getActors (constructMany n ActorStatics.initial) =
        List.range n := by
      simp only [Actor.getActors, ActorStatics.initial] at h ⊢
      rw [h.1, List.range_eq_range']
      rfl
    exact ⟨hr, hr ▸ List.nodup_range n⟩

/-! ## C4: the surface-visibility invariant of `setUsePostProcessing` -/

/-- C4: after every `setUsePostProcessing(use)` call, from every prior
state, the post-process surface is visible exactly when `use` holds, the
primary surface exactly when it does not — so exactly one of the two
surfaces is visible. -/
theorem setUsePostProcessing_exactly_one_visible
    (r : WebGPURenderer) (use : Bool) :
    (r.setUsePostProcessing use).postProcessingRenderingCanvas.visible = use ∧
    (r.setUsePostProcessing use).renderingCanvas.visible = !use ∧
    (r.setUsePostProcessing use).renderingCanvas.visible ≠
      (r.setUsePostProcessing use).postProcessingRenderingCanvas.visible := by
  cases use <;>
    simp [WebGPURenderer.setUsePostProcessing, RenderingCanvas.displayCanvas,
      RenderingCanvas.hideCanvas]

/-! ## C9: not-Ready behavior of `render` and `getDevice` -/

/-- C9: with no device bound, `render` is a silent no-op (empty command
stream) while `getDevice` fails loudly with "Error: Device not found";
and whenever `getDevice` returns successfully, the returned device is
the bound one — it never returns an absent device. -/
theorem render_noop_getDevice_throws (r : WebGPURenderer)
    (actors : List ActorRef) (camera : ActorRef) :
    (r.device = none →
      r.render actors camera = [] ∧
      r.getDevice = Except.error "Error: Device not found") ∧
    (∀ d : GPUDevice, r.getDevice = Except.ok d → r.device = some d) := by
  constructor
  · intro h
    constructor
    · simp [WebGPURenderer.render, h]
    · simp [WebGPURenderer.getDevice, h]
  · intro d hd
    cases h : r.device with
    | none => simp [WebGPURenderer.getDevice, h] at hd
    | some d0 =>
        simp [WebGPURenderer.getDevice, h] at hd
        rw [hd]

/-- C9 witness: a concrete renderer with no device. -/
theorem render_noop_getDevice_throws_witness :
    unreadyRenderer.render [actorB] cameraA = [] ∧
    unreadyRenderer.getDevice = Except.error "Error: Device not found" :=
  (render_noop_getDevice_throws unreadyRenderer [actorB] cameraA).1 rfl

/-! ## C1: exactly one encoder / pass / submission per `render` call -/

/-- Draw commands carry no session, pass or submit events. -/
theorem flatMap_renderActorOps_filter (l : List ActorRef) (p : GPUOp → Bool)
    (hp : ∀ i n, p (GPUOp.drawActor i n) = false) :
    (l.flatMap renderActorOps).filter p = [] := by
  induction l with
  | nil => simp
  | cons a l ih => simp [renderActorOps, hp, ih]

/-- Draw commands submit no command buffers. -/
theorem flatMap_renderActorOps_submitPayload (l : List ActorRef) :
    (l.flatMap renderActorOps).filterMap submitPayload = [] := by
  induction l with
  | nil => simp
  | cons a l ih => simp [renderActorOps, submitPayload, ih]

/-- C1: when the renderer is Ready (device, context and depth view all
present), every `render(actors, camera)` call — for every actor list,
the empty one included — opens exactly one command-recording session,
begins exactly one render pass, and performs exactly one queue
submission carrying exactly one command buffer; when it is not Ready,
the call produces no commands at all. -/
theorem render_exactly_one_submission (r : WebGPURenderer)
    (actors : List ActorRef) (camera : ActorRef) :
    (r.isReady = true →
      countOp (r.render actors camera) GPUOp.isEncoderStart = 1 ∧
      countOp (r.render actors camera) GPUOp.isPassBegin = 1 ∧
      countOp (r.render actors camera) GPUOp.isSubmit = 1 ∧
      submittedBuffers (r.render actors camera) = 1) ∧
    (r.isReady = false → r.render actors camera = []) := by
  cases hd : r.device with
  | none =>
      refine ⟨fun h => ?_, fun _ => ?_⟩
      · simp [WebGPURenderer.isReady, hd] at h
      · simp [WebGPURenderer.render, hd]
  | some dev =>
      cases hc : r.context with
      | none =>
          refine ⟨fun h => ?_, fun _ => ?_⟩
          · simp [WebGPURenderer.isReady, hc] at h
          · simp [WebGPURenderer.render, hd, hc]
      | some ctx =>
          cases hv : r.depthView with
          | none =>
              refine ⟨fun h => ?_, fun _ => ?_⟩
              · simp [WebGPURenderer.isReady, hv] at h
              · simp [WebGPURenderer.render, hd, hc, hv]
          | some dv =>
              refine ⟨fun _ => ?_, fun h => ?_⟩
              · have hr' : r.render actors camera =
                    [GPUOp.createCommandEncoder,
                     GPUOp.beginRenderPass (9/100) (9/100) (9/100) 1 1]
                    ++ (actors.filter
                        (fun a => a.id ≠ camera.id)).flatMap renderActorOps
                    ++ [GPUOp.endPass, GPUOp.submit 1] := by
                  simp only [WebGPURenderer.render, hd, hc, hv]
                have he := flatMap_renderActorOps_filter
                  (actors.filter (fun a => a.id ≠ camera.id))
                  GPUOp.isEncoderStart (fun _ _ => rfl)
                have hb := flatMap_renderActorOps_filter
                  (actors.filter (fun a => a.id ≠ camera.id))
                  GPUOp.isPassBegin (fun _ _ => rfl)
                have hs := flatMap_renderActorOps_filter
                  (actors.filter (fun a => a.id ≠ camera.id))
                  GPUOp.isSubmit (fun _ _ => rfl)
                have hm := flatMap_renderActorOps_submitPayload
                  (actors.filter (fun a => a.id ≠ camera.id))
                refine ⟨?_, ?_, ?_, ?_⟩
                · rw [countOp, hr', List.filter_append, List.filter_append, he]
                  rfl
                · rw [countOp, hr', List.filter_append, List.filter_append, hb]
                  rfl
                · rw [countOp, hr', List.filter_append, List.filter_append, hs]
                  rfl
                · rw [submittedBuffers, hr', List.filterMap_append,
                    List.filterMap_append, hm]
                  rfl
              · simp [WebGPURenderer.isReady, hd, hc, hv] at h

/-- C1 witness: a Ready renderer with one actor, and the same renderer
stripped of its device. -/
theorem render_exactly_one_submission_witness :
    (readyRenderer.isReady = true →
      countOp (readyRenderer.render [actorB] cameraA) GPUOp.isEncoderStart = 1 ∧
      countOp (readyRenderer.render [actorB] cameraA) GPUOp.isPassBegin = 1 ∧
      countOp (readyRenderer.render [actorB] cameraA) GPUOp.isSubmit = 1 ∧
      submittedBuffers (readyRenderer.render [actorB] cameraA) = 1) ∧
    countOp (readyRenderer.render [actorB] cameraA) GPUOp.isSubmit = 1 ∧
    unreadyRenderer.render [actorB] cameraA = [] :=
  ⟨(render_exactly_one_submission readyRenderer [actorB] cameraA).1,
   ((render_exactly_one_submission readyRenderer [actorB] cameraA).1 rfl).2.2.1,
   (render_exactly_one_submission unreadyRenderer [actorB] cameraA).2 rfl⟩

/-! ## C3: camera exclusion and draw order -/

/-- The draws a sequence of `renderActor` calls produces are exactly the
rendered actors' identities, in order. -/
theorem drawnActors_flatMap (l : List ActorRef) :
    drawnActors (l.flatMap renderActorOps) = l.map ActorRef.id := by
  induction l with
  | nil => simp [drawnActors]
  | cons a l ih => simp [drawnActors, renderActorOps] at ih ⊢; exact ih

/-- C3: in a Ready state, the actors drawn by `render(actors, camera)`
are exactly the input-list elements whose identity differs from the
camera's, each once, in input order — in particular the camera object
itself is never drawn, even when it is an element of the list. -/
theorem render_excludes_camera (r : WebGPURenderer)
    (actors : List ActorRef) (camera : ActorRef) (h : r.isReady = true) :
    drawnActors (r.render actors camera) =
      (actors.filter (fun a => a.id ≠ camera.id)).map ActorRef.id ∧
    camera.id ∉ drawnActors (r.render actors camera) := by
  obtain ⟨dev, hd⟩ : ∃ d, r.device = some d := by
    cases hdev : r.device with
    | none => simp [WebGPURenderer.isReady, hdev] at h
    | some d => exact ⟨d, rfl⟩
  obtain ⟨ctx, hc⟩ : ∃ c, r.context = some c := by
    cases hctx : r.context with
    | none => simp [WebGPURenderer.isReady, hctx] at h
    | some c => exact ⟨c, rfl⟩
  obtain ⟨dv, hv⟩ : ∃ v, r.depthView = some v := by
    cases hview : r.depthView with
    | none => simp [WebGPURenderer.isReady, hview] at h
    | some v => exact ⟨v, rfl⟩
  have hmain : drawnActors (r.render actors camera) =
      (actors.filter (fun a => a.id ≠ camera.id)).map ActorRef.id := by
    simp [WebGPURenderer.render, hd, hc, hv, drawnActors,
      List.filterMap_append] at *
    have := drawnActors_flatMap (actors.filter (fun a => a.id ≠ camera.id))
    simp [drawnActors] at this
    exact this
  refine ⟨hmain, ?_⟩
  rw [hmain]
  intro hmem
  obtain ⟨a, ha, hid⟩ := List.mem_map.mp hmem
  have := List.of_mem_filter ha
  simp at this
  exact this hid

/-- C3 witness: a list holding the camera itself between two actors. -/
theorem render_excludes_camera_witness :
    drawnActors (readyRenderer.render [actorB, cameraA, actorB] cameraA) =
      (([actorB, cameraA, actorB].filter
        (fun a => a.id ≠ cameraA.id)).map ActorRef.id) ∧
    cameraA.id ∉
      drawnActors (readyRenderer.render [actorB, cameraA, actorB] cameraA) :=
  render_excludes_camera readyRenderer [actorB, cameraA, actorB] cameraA rfl

/-! ## C5: bind-group resource mapping -/

/-- C5 counterexample: a resource of an unrecognized kind (neither
buffer, texture nor sampler) does not make the builder fail — the
`instanceof` fall-through passes it through unchanged and the builder
returns a bind group, exactly as for a sampler. -/
theorem setupUniformBindGroup_no_failure :
    setupUniformBindGroup [GPUResource.other 7] =
      Except.ok [⟨0, GPUBindingResource.passedThrough (GPUResource.other 7)⟩] ∧
    getBindGroupEntryResource (GPUResource.other 7) =
      GPUBindingResource.passedThrough (GPUResource.other 7) :=
  ⟨rfl, rfl⟩

/-- The entry loop assigns sequential binding slots from its start
index and maps each resource through `getBindGroupEntryResource`. -/
theorem setupEntries_spec (i : Nat) (rs : List GPUResource) :
    (setupEntries i rs).map GPUBindGroupEntry.binding =
      List.range' i rs.length ∧
    (setupEntries i rs).map GPUBindGroupEntry.resource =
      rs.map getBindGroupEntryResource := by
  induction rs generalizing i with
  | nil => simp [setupEntries]
  | cons r rs ih =>
      obtain ⟨h1, h2⟩ := ih (i + 1)
      simp [setupEntries, List.range'_succ, h1, h2]

/-- C5 amended: the builder never fails; it returns entries at
sequential slots 0..len-1 where a buffer becomes a buffer binding
wrapping the whole buffer, a texture becomes a default view of that
texture, a sampler is passed through unchanged — and a resource of an
unrecognized kind is also passed through unchanged (the fall-through
branch), rather than rejected. -/
theorem setupUniformBindGroup_maps (rs : List GPUResource) :
    ∃ entries : List GPUBindGroupEntry,
      setupUniformBindGroup rs = Except.ok entries ∧
      entries.map GPUBindGroupEntry.binding = List.range rs.length ∧
      entries.map GPUBindGroupEntry.resource =
        rs.map getBindGroupEntryResource ∧
      (∀ b, getBindGroupEntryResource (GPUResource.buffer b) =
        GPUBindingResource.bufferBinding b) ∧
      (∀ t, getBindGroupEntryResource (GPUResource.texture t) =
        GPUBindingResource.defaultView t) ∧
      (∀ s, getBindGroupEntryResource (GPUResource.sampler s) =
        GPUBindingResource.passedThrough (GPUResource.sampler s)) ∧
      (∀ i, getBindGroupEntryResource (GPUResource.other i) =
        GPUBindingResource.passedThrough (GPUResource.other i)) := by
  obtain ⟨h1, h2⟩ := setupEntries_spec 0 rs
  refine ⟨setupEntries 0 rs, rfl, ?_, h2,
    fun _ => rfl, fun _ => rfl, fun _ => rfl, fun _ => rfl⟩
  rw [h1, List.range_eq_range']

/-! ## C8: the post-processing quad mesh -/

/-- The (x, y) position of each vertex of an interleaved 8-float-stride
content list (position at offsets 0..2 of each vertex). -/
def positionsXY : List ℚ → List (ℚ × ℚ)
  | x :: y :: _z :: _u :: _v :: _nx :: _ny :: _nz :: rest =>
      (x, y) :: positionsXY rest
  | _ => []

/-- Barycentric membership of a point in the triangle with corners
`A`, `B`, `C`. -/
def inTriangle (A B C p : ℚ × ℚ) : Prop :=
  ∃ a b c : ℚ, 0 ≤ a ∧ 0 ≤ b ∧ 0 ≤ c ∧ a + b + c = 1 ∧
    p.1 = a * A.1 + b * B.1 + c * C.1 ∧
    p.2 = a * A.2 + b * B.2 + c * C.2

/-- The closed clip-space square from (-1, -1) to (1, 1). -/
def inSquare (p : ℚ × ℚ) : Prop :=
  -1 ≤ p.1 ∧ p.1 ≤ 1 ∧ -1 ≤ p.2 ∧ p.2 ≤ 1

/-- C8: the quad mesh built at construction holds exactly
6 × 8 = 48 floats, its six vertex positions are the two triangles
((-1,1), (-1,-1), (1,-1)) and ((-1,1), (1,1), (1,-1)), and a point lies
in one of those two triangles exactly when it lies in the clip-space
square [-1,1]² — the triangles together span the full square. -/
theorem quadMesh_spans_square :
    setupQuadMesh.getVertices.length = 48 ∧
    positionsXY setupQuadMesh.getVertices =
      [(-1, 1), (-1, -1), (1, -1), (-1, 1), (1, 1), (1, -1)] ∧
    (∀ p : ℚ × ℚ,
      (inTriangle (-1, 1) (-1, -1) (1, -1) p ∨
       inTriangle (-1, 1) (1, 1) (1, -1) p) ↔ inSquare p) := by
  refine ⟨by decide, by decide, fun p => ⟨?_, ?_⟩⟩
  · rintro (⟨a, b, c, ha, hb, hc, habc, hx, hy⟩ |
            ⟨a, b, c, ha, hb, hc, habc, hx, hy⟩) <;>
      norm_num at hx hy <;>
      exact ⟨by linarith, by linarith, by linarith, by linarith⟩
  · rintro ⟨hx1, hx2, hy1, hy2⟩
    rcases le_or_lt (p.1 + p.2) 0 with h | h
    · left
      refine ⟨(1 + p.2) / 2, -(p.1 + p.2) / 2, (1 + p.1) / 2,
        by linarith, by linarith, by linarith, by ring, ?_, ?_⟩
      · show p.1 = _ * (-1 : ℚ) + _ * (-1 : ℚ) + _ * (1 : ℚ)
        ring
      · show p.2 = _ * (1 : ℚ) + _ * (-1 : ℚ) + _ * (-1 : ℚ)
        ring
    · right
      refine ⟨(1 - p.1) / 2, (p.1 + p.2) / 2, (1 - p.2) / 2,
        by linarith, by linarith, by linarith, by ring, ?_, ?_⟩
      · show p.1 = _ * (-1 : ℚ) + _ * (1 : ℚ) + _ * (1 : ℚ)
        ring
      · show p.2 = _ * (1 : ℚ) + _ * (1 : ℚ) + _ * (-1 : ℚ)
        ring

/-- C8 witness: the origin lies in the union of the two quad
triangles. -/
theorem quadMesh_spans_square_witness :
    inTriangle (-1, 1) (-1, -1) (1, -1) ((0 : ℚ), (0 : ℚ)) ∨
    inTriangle (-1, 1) (1, 1) (1, -1) ((0 : ℚ), (0 : ℚ)) :=
  (quadMesh_spans_square.2.2 (0, 0)).mpr
    (by constructor <;> [norm_num; constructor <;> [norm_num;
      constructor <;> norm_num]])

end GraphiteEngine
